import Mathlib

/-!
Verification development for the CodeReviewer worker: a shallow embedding of
the scan-job pipeline (orchestrator, tool adapters, repository acquisition,
credential provider, job intake) with theorems about its invariants.

External effects (subprocess execution, network transfers, the filesystem,
clocks and random identifiers) are passed in explicitly as environment
values; the control flow and data transformations are translated from the
TypeScript source.
-/

/- ## Core data model (src/security/types.ts) -/

inductive SecuritySeverity where
  | critical
  | high
  | medium
  | low
  | info
deriving DecidableEq

inductive IssueTool where
  | semgrep
  | opengrep
  | gitleaks
  | checkov
  | trivy
  | llm
deriving DecidableEq

structure SecurityIssue where
  tool : IssueTool
  severity : SecuritySeverity
  title : String
  description : String
  filePath : String
  lineStart : Nat
  lineEnd : Option Nat := none
  code : Option String := none
  recommendation : Option String := none
  cwe : Option (List String) := none
  owasp : Option (List String) := none
deriving DecidableEq

structure ScanSummary where
  critical : Nat
  high : Nat
  medium : Nat
  low : Nat
  info : Nat
  total : Nat
deriving DecidableEq

structure SecurityScanResult where
  repoId : Nat
  branch : String
  scanId : String
  timestamp : Nat
  issues : List SecurityIssue
  summary : ScanSummary
  scanDuration : Nat
  toolsUsed : List String
deriving DecidableEq

/- ## String operations with JavaScript semantics

`String.prototype.replace(searchString, replacement)` replaces only the
FIRST occurrence of the search string; the orchestrator relies on it to
strip the scan-root from finding paths. Modelled over `List Char`. -/

/-- Whether `pat` is an initial segment of `s`. -/
def startsWithL : List Char → List Char → Bool
  | [], _ => true
  | _ :: _, [] => false
  | p :: ps, c :: cs => p == c && startsWithL ps cs

/-- Whether `pat` occurs as a contiguous substring of `s`. -/
def containsSub (pat : List Char) : List Char → Bool
  | [] => pat.isEmpty
  | c :: cs => startsWithL pat (c :: cs) || containsSub pat cs

/-- Replace the first occurrence of `pat` in `s` by `rep`; `s` unchanged if
`pat` does not occur (JavaScript `String.replace` with a string pattern). -/
def replaceFirstL (pat rep : List Char) : List Char → List Char
  | [] => if pat.isEmpty then rep else []
  | c :: cs =>
    if startsWithL pat (c :: cs) then rep ++ (c :: cs).drop pat.length
    else c :: replaceFirstL pat rep cs

def jsReplaceFirst (s pat rep : String) : String :=
  String.mk (replaceFirstL pat.data rep.data s.data)

def strContains (pat s : String) : Bool :=
  containsSub pat.data s.data

/-- JavaScript `parseInt` followed by the `Number.isFinite` guard, for the
decimal installation identifiers the worker handles: a non-empty all-digit
string parses to its value, anything else is rejected. -/
def jsParseNat (s : String) : Option Nat :=
  if s.data ≠ [] ∧ s.data.all Char.isDigit then
    some (s.data.foldl (fun acc c => acc * 10 + (c.toNat - 48)) 0)
  else none

def emptyStr : String := ""

def pathSlash : String := "/"

/-- src/security/orchestrator.ts lines 172-175: strip the temp directory
path from a finding file path, `filePath.replace(tempDir + '/', '').replace(tempDir, '')`. -/
def cleanPath (tempDir filePath : String) : String :=
  jsReplaceFirst (jsReplaceFirst filePath (tempDir ++ pathSlash) emptyStr) tempDir emptyStr

/- ## Tool adapters (src/security/scanners/)

Each adapter runs an availability check (`which <tool>`), executes the
engine as a subprocess with a 10-minute timeout, and parses its JSON
output; both steps sit inside try/catch blocks whose catch arms return an
empty list. `ExecOutcome` is the environment an adapter sees: whether the
binary was found, and the outcome of the subprocess plus JSON parse
(`output none` = stdout was empty, was not valid JSON, or lacked the
expected result field — each of which yields the empty list). -/

inductive ExecOutcome (α : Type) where
  | notInstalled
  | timedOut
  | failed (msg : String)
  | output (parsed : Option α)

def recInjection : String :=
  "Use parameterized queries or prepared statements to prevent injection attacks."

def recXss : String :=
  "Sanitize and escape user input before rendering. Use a templating engine with auto-escaping."

def recCrypto : String :=
  "Use industry-standard cryptographic libraries. Avoid deprecated algorithms like MD5 or SHA1."

def recDefault : String :=
  "Review the code and apply security best practices. Consult OWASP guidelines for specific recommendations."

def strInjection : String := "injection"

def strXss : String := "xss"

def strCrypto : String := "crypto"

/-- semgrep.ts / opengrep.ts `generateRecommendation`: template a
recommendation from the finding metadata category. -/
def generateRecommendation (category : Option String) : String :=
  match category with
  | some c =>
    if strContains strInjection c then recInjection
    else if strContains strXss c then recXss
    else if strContains strCrypto c then recCrypto
    else recDefault
  | none => recDefault

structure SemgrepFinding where
  checkId : String
  path : String
  startLine : Nat
  endLine : Nat
  message : String
  severity : String
  cwe : Option (List String) := none
  owasp : Option (List String) := none
  category : Option String := none

/-- JavaScript `toLowerCase` for the ASCII severity vocabulary, applied
character by character. -/
def jsToLower (s : String) : String := String.mk (s.data.map Char.toLower)

/-- JavaScript `toUpperCase` for the ASCII severity vocabulary, applied
character by character. -/
def jsToUpper (s : String) : String := String.mk (s.data.map Char.toUpper)

def sevError : String := "error"

def sevCritical : String := "critical"

def sevWarning : String := "warning"

def sevInfo : String := "info"

/-- semgrep.ts lines 71-83: severity mapping; the default arm is `low`. -/
def mapSemgrepSeverity (severity : String) : SecuritySeverity :=
  let l := jsToLower severity
  if l = sevError ∨ l = sevCritical then SecuritySeverity.critical
  else if l = sevWarning then SecuritySeverity.high
  else if l = sevInfo then SecuritySeverity.medium
  else SecuritySeverity.low

def semgrepToIssue (f : SemgrepFinding) : SecurityIssue :=
  { tool := IssueTool.semgrep
    severity := mapSemgrepSeverity f.severity
    title := f.checkId
    description := f.message
    filePath := f.path
    lineStart := f.startLine
    lineEnd := some f.endLine
    cwe := f.cwe
    owasp := f.owasp
    recommendation := some (generateRecommendation f.category) }

/-- semgrep.ts `runSemgrep`: every failure mode (missing binary, timeout,
subprocess error, unparsable output) is caught and yields the empty list. -/
def runSemgrep (env : ExecOutcome (List SemgrepFinding)) : Except String (List SecurityIssue) :=
  match env with
  | ExecOutcome.notInstalled => Except.ok []
  | ExecOutcome.timedOut => Except.ok []
  | ExecOutcome.failed _ => Except.ok []
  | ExecOutcome.output none => Except.ok []
  | ExecOutcome.output (some findings) => Except.ok (findings.map semgrepToIssue)

/-- opengrep.ts lines 199-211: identical mapping to semgrep, default `low`. -/
def mapOpengrepSeverity (severity : String) : SecuritySeverity :=
  let l := jsToLower severity
  if l = sevError ∨ l = sevCritical then SecuritySeverity.critical
  else if l = sevWarning then SecuritySeverity.high
  else if l = sevInfo then SecuritySeverity.medium
  else SecuritySeverity.low

def opengrepToIssue (f : SemgrepFinding) : SecurityIssue :=
  { tool := IssueTool.opengrep
    severity := mapOpengrepSeverity f.severity
    title := f.checkId
    description := f.message
    filePath := f.path
    lineStart := f.startLine
    lineEnd := some f.endLine
    cwe := f.cwe
    owasp := f.owasp
    recommendation := some (generateRecommendation f.category) }

/-- opengrep.ts `runOpengrep`. -/
def runOpengrep (env : ExecOutcome (List SemgrepFinding)) : Except String (List SecurityIssue) :=
  match env with
  | ExecOutcome.notInstalled => Except.ok []
  | ExecOutcome.timedOut => Except.ok []
  | ExecOutcome.failed _ => Except.ok []
  | ExecOutcome.output none => Except.ok []
  | ExecOutcome.output (some findings) => Except.ok (findings.map opengrepToIssue)

structure GitleaksFinding where
  description : String
  startLine : Nat
  endLine : Nat
  file : String
  secret : String
  ruleId : String

def maskChars : String := "***"

/-- gitleaks.ts `maskSecret`. -/
def maskSecret (secret : String) : String :=
  if secret.length ≤ 8 then maskChars
  else secret.take 4 ++ maskChars ++ secret.drop (secret.length - 4)

def secretTitleStart : String := "Secret Detected: "

def recGitleaks : String :=
  "Immediately rotate this secret and remove it from version control history. Use environment variables or secret management services."

def owaspCrypto : String := "A02:2021-Cryptographic Failures"

def gitleaksToIssue (f : GitleaksFinding) : SecurityIssue :=
  { tool := IssueTool.gitleaks
    severity := SecuritySeverity.critical
    title := secretTitleStart ++ f.ruleId
    description := f.description
    filePath := f.file
    lineStart := f.startLine
    lineEnd := some f.endLine
    code := some (maskSecret f.secret)
    recommendation := some recGitleaks
    owasp := some [ owaspCrypto ] }

/-- gitleaks.ts `runGitleaks`: every finding is mapped to severity
`critical` unconditionally. -/
def runGitleaks (env : ExecOutcome (List GitleaksFinding)) : Except String (List SecurityIssue) :=
  match env with
  | ExecOutcome.notInstalled => Except.ok []
  | ExecOutcome.timedOut => Except.ok []
  | ExecOutcome.failed _ => Except.ok []
  | ExecOutcome.output none => Except.ok []
  | ExecOutcome.output (some findings) => Except.ok (findings.map gitleaksToIssue)

structure CheckovFinding where
  checkId : String
  checkName : String
  filePath : String
  lineStartRange : Nat
  lineEndRange : Nat
  resource : String
  checkClass : String
  guideline : Option String := none

structure CheckovResult where
  failedChecks : Option (List CheckovFinding)

def classCritical : String := "CRITICAL"

def classHigh : String := "HIGH"

def classMedium : String := "MEDIUM"

def classLow : String := "LOW"

/-- checkov.ts lines 87-93: substring match on the check class; the
default arm is `medium`. -/
def mapCheckovSeverity (checkClass : String) : SecuritySeverity :=
  if strContains classCritical checkClass then SecuritySeverity.critical
  else if strContains classHigh checkClass then SecuritySeverity.high
  else if strContains classMedium checkClass then SecuritySeverity.medium
  else if strContains classLow checkClass then SecuritySeverity.low
  else SecuritySeverity.medium

def checkovDescStart : String := "Infrastructure misconfiguration detected in "

def recCheckovDefault : String :=
  "Follow infrastructure security best practices. Review cloud provider security documentation."

def owaspMisconfig : String := "A05:2021-Security Misconfiguration"

def checkovToIssue (f : CheckovFinding) : SecurityIssue :=
  { tool := IssueTool.checkov
    severity := mapCheckovSeverity f.checkClass
    title := f.checkName
    description := checkovDescStart ++ f.resource
    filePath := f.filePath
    lineStart := f.lineStartRange
    lineEnd := some f.lineEndRange
    recommendation := some (f.guideline.getD recCheckovDefault)
    owasp := some [ owaspMisconfig ] }

/-- checkov.ts `runCheckov`: iterates the per-framework results and
collects failed checks; all failures yield the empty list. -/
def runCheckov (env : ExecOutcome (List CheckovResult)) : Except String (List SecurityIssue) :=
  match env with
  | ExecOutcome.notInstalled => Except.ok []
  | ExecOutcome.timedOut => Except.ok []
  | ExecOutcome.failed _ => Except.ok []
  | ExecOutcome.output none => Except.ok []
  | ExecOutcome.output (some results) =>
    Except.ok ((results.map (fun r =>
      match r.failedChecks with
      | some checks => checks.map checkovToIssue
      | none => [])).flatten)

structure TrivyVulnerability where
  vulnerabilityId : String
  pkgName : String
  installedVersion : String
  fixedVersion : Option String := none
  severity : String
  title : String
  description : String

structure TrivyResult where
  target : String
  vulnerabilities : Option (List TrivyVulnerability) := none

/-- trivy.ts lines 115-128: severity mapping; the default arm is `info`. -/
def mapTrivySeverity (severity : String) : SecuritySeverity :=
  let u := jsToUpper severity
  if u = classCritical then SecuritySeverity.critical
  else if u = classHigh then SecuritySeverity.high
  else if u = classMedium then SecuritySeverity.medium
  else if u = classLow then SecuritySeverity.low
  else SecuritySeverity.info

def colonSep : String := ": "

def recUpdateStart : String := "Update "

def recFromSep : String := " from "

def recToSep : String := " to "

def recNoFixStart : String := "No fix available yet for "

def recNoFixEnd : String := ". Monitor for updates."

def owaspOutdated : String := "A06:2021-Vulnerable and Outdated Components"

def trivyToIssue (target : String) (v : TrivyVulnerability) : SecurityIssue :=
  { tool := IssueTool.trivy
    severity := mapTrivySeverity v.severity
    title := v.vulnerabilityId ++ colonSep ++ v.pkgName
    description := if v.title = emptyStr then v.description else v.title
    filePath := target
    lineStart := 1
    recommendation := some (match v.fixedVersion with
      | some fx => recUpdateStart ++ v.pkgName ++ recFromSep ++ v.installedVersion ++ recToSep ++ fx
      | none => recNoFixStart ++ v.pkgName ++ recNoFixEnd)
    owasp := some [ owaspOutdated ] }

/-- trivy.ts `runTrivy`: skips result entries without vulnerabilities;
all failures yield the empty list. -/
def runTrivy (env : ExecOutcome (List TrivyResult)) : Except String (List SecurityIssue) :=
  match env with
  | ExecOutcome.notInstalled => Except.ok []
  | ExecOutcome.timedOut => Except.ok []
  | ExecOutcome.failed _ => Except.ok []
  | ExecOutcome.output none => Except.ok []
  | ExecOutcome.output (some results) =>
    Except.ok ((results.map (fun r =>
      match r.vulnerabilities with
      | some vs => vs.map (trivyToIssue r.target)
      | none => [])).flatten)

/- ## Scan orchestrator (src/security/orchestrator.ts `runSecurityScan`)

The environment carries the outcome of repository acquisition, the five
scanner promises (each already an adapter result; a rejected promise is an
`Except.error`, which the per-scanner `.catch` at the call site converts to
an empty contribution), the random scan id, the clock readings, and whether
the 15-minute watchdog timer fired during the scan. The returned
`ScanState` records the resource effects of the run: whether the job-scoped
storage still exists, whether the watchdog timer is still armed, and how
many times the repository cleanup capability was invoked. -/

inductive AcqError where
  | invalidUrl
  | httpFailed (code : String)
  | fileMissing
  | emptyFile
  | tooLarge (sizeBytes : Nat)
  | notZip
  | unzipFailed
  | noEntries
deriving DecidableEq

inductive ScanError where
  | missingRepoUrl
  | acquisitionFailed (e : AcqError)
deriving DecidableEq

deriving instance DecidableEq for Except

structure ScanOptions where
  repoId : Nat
  repoUrl : String
  branch : String
  token : Option String := none
  skipTools : Option (List String) := none

structure ScanEnv where
  scanId : String
  acquisition : Except AcqError String
  semgrep : Except String (List SecurityIssue)
  opengrep : Except String (List SecurityIssue)
  gitleaks : Except String (List SecurityIssue)
  checkov : Except String (List SecurityIssue)
  trivy : Except String (List SecurityIssue)
  watchdogFires : Bool
  durationMs : Nat
  timestamp : Nat

structure ScanState where
  storageExists : Bool
  timerActive : Bool
  cleanupCalls : Nat
deriving DecidableEq

def semgrepName : String := "semgrep"

def opengrepName : String := "opengrep"

def gitleaksName : String := "gitleaks"

def checkovName : String := "checkov"

def trivyName : String := "trivy"

def toolNames : List String :=
  [ semgrepName, opengrepName, gitleaksName, checkovName, trivyName ]

/-- orchestrator.ts lines 55-57: the enabled tools. -/
def toolsToRun (options : ScanOptions) : List String :=
  toolNames.filter (fun t => !((options.skipTools.getD []).contains t))

/-- The per-scanner `.catch` handler at the orchestrator call site
(orchestrator.ts lines 66-140): a rejected scanner promise becomes an
empty contribution. -/
def catchEmpty : Except String (List SecurityIssue) → List SecurityIssue
  | Except.ok issues => issues
  | Except.error _ => []

/-- orchestrator.ts lines 61-144: `Promise.all(scanPromises)` followed by
`results.flat()`, in scanner registration order. -/
def scanContributions (options : ScanOptions) (env : ScanEnv) : List SecurityIssue :=
  (if (toolsToRun options).contains semgrepName then catchEmpty env.semgrep else []) ++
  (if (toolsToRun options).contains opengrepName then catchEmpty env.opengrep else []) ++
  (if (toolsToRun options).contains gitleaksName then catchEmpty env.gitleaks else []) ++
  (if (toolsToRun options).contains checkovName then catchEmpty env.checkov else []) ++
  (if (toolsToRun options).contains trivyName then catchEmpty env.trivy else [])

/-- orchestrator.ts lines 150-155 and 178-185: count the issues at each of
the five severities (the filter predicates enumerate the severity enum). -/
def severityCount (sev : SecuritySeverity) (issues : List SecurityIssue) : Nat :=
  (issues.filter (fun i => i.severity == sev)).length

def summarize (issues : List SecurityIssue) : ScanSummary :=
  { critical := severityCount SecuritySeverity.critical issues
    high := severityCount SecuritySeverity.high issues
    medium := severityCount SecuritySeverity.medium issues
    low := severityCount SecuritySeverity.low issues
    info := severityCount SecuritySeverity.info issues
    total := issues.length }

/-- orchestrator.ts lines 22-213 `runSecurityScan`.

Control flow translated from the source: fail fast on an empty repository
URL; a failed acquisition propagates (`downloadRepoAsZip` removed its own
storage before rethrowing, and the finally block finds no timer and no
handle); after a successful acquisition the watchdog timer is armed, the
enabled scanners run with per-scanner catch handlers, the temp-directory
path is stripped from every finding, the summary is computed, and the
finally block always clears the watchdog timer and invokes the cleanup
capability (a second time if the watchdog already forced a cleanup; the
cleanup is an idempotent recursive force-remove). -/
def runSecurityScan (options : ScanOptions) (env : ScanEnv) :
    Except ScanError SecurityScanResult × ScanState :=
  if options.repoUrl = emptyStr then
    (Except.error ScanError.missingRepoUrl,
     { storageExists := false, timerActive := false, cleanupCalls := 0 })
  else
    match env.acquisition with
    | Except.error e =>
      (Except.error (ScanError.acquisitionFailed e),
       { storageExists := false, timerActive := false, cleanupCalls := 0 })
    | Except.ok tempDir =>
      let allIssues := scanContributions options env
      let cleanedIssues := allIssues.map (fun issue =>
        { issue with filePath := cleanPath tempDir issue.filePath })
      (Except.ok
        { repoId := options.repoId
          branch := options.branch
          scanId := env.scanId
          timestamp := env.timestamp
          issues := cleanedIssues
          summary := summarize cleanedIssues
          scanDuration := env.durationMs
          toolsUsed := toolsToRun options },
       { storageExists := false
         timerActive := false
         cleanupCalls := if env.watchdogFires then 2 else 1 })

/- ## Repository acquirer (src/github/zip-download.ts `downloadRepoAsZip`)

The environment carries what the external world returned at each step:
the URL regex match, the HTTP status `curl` printed, the `stat` of the
downloaded file, the first 200 bytes of the download (the validation
buffer), whether `unzip` succeeded, and the directory listings plus rename
outcomes for the flatten step. `DlOutcome` records the result and the
final filesystem facts the claims are about. -/

structure DlEnv where
  tempDirPath : String
  parsedUrl : Option (String × String)
  httpCode : String
  fileSize : Option Nat
  zipHeader : String
  unzipOk : Bool
  extractedEntries : List String
  readWrapperOk : Bool
  wrapperEntries : List String
  renamesOk : Bool

structure DlOutcome where
  result : Except AcqError String
  zipFileExists : Bool
  tempDirExists : Bool
  extractionAttempted : Bool
  htmlDiagnosed : Option Bool
  wrapperRemoved : Bool
  rootListing : List String
deriving DecidableEq

def httpOkDigit : String := "2"

/-- zip-download.ts line 104: 5 GiB ceiling on the downloaded archive. -/
def maxRepoSize : Nat := 5 * 1024 * 1024 * 1024

def docTypeTag : String := "<!DOCTYPE"

def htmlTag : String := "<html"

/-- zip-download.ts lines 137-141: does the validation buffer look like an
HTML error page. -/
def looksLikeHtml (header : String) : Bool :=
  strContains docTypeTag header || strContains htmlTag header

/-- zip-download.ts line 126: the magic-byte check on the 200-byte
validation buffer — length at least 4 and the leading bytes `PK`. -/
def isValidZip (header : String) : Bool :=
  decide (4 ≤ header.length) &&
    (match header.data with
     | p :: k :: _ => p == 'P' && k == 'K'
     | _ => false)

/-- A failure outcome: the inner catch removes the zip file and the outer
catch (zip-download.ts lines 234-243) removes the temp directory and the
zip file. -/
def dlFail (e : AcqError) (html : Option Bool) (attempted : Bool) : DlOutcome :=
  { result := Except.error e
    zipFileExists := false
    tempDirExists := false
    extractionAttempted := attempted
    htmlDiagnosed := html
    wrapperRemoved := false
    rootListing := [] }

/-- zip-download.ts lines 35-244 `downloadRepoAsZip`.

Control flow translated from the source: parse owner/repo from the URL
(fail fast on no match); check the HTTP status printed by curl; `stat` the
downloaded file (missing, empty or oversized fails); validate the magic
bytes BEFORE extraction, recording whether the payload looks like an HTML
error page when they do not match; run `unzip`; take the first extracted
entry as the wrapper directory; flatten by renaming each of the wrapper
entries up one level and removing the wrapper (a failed readdir or rename
is caught and the run continues with the nested path); finally remove the
zip file and return the root path with a cleanup capability. Every throw
lands in the outer catch, which removes the temp directory and the zip. -/
def downloadRepoAsZip (env : DlEnv) : DlOutcome :=
  match env.parsedUrl with
  | none => dlFail AcqError.invalidUrl none false
  | some _ =>
    if !(startsWithL httpOkDigit.data env.httpCode.data) then
      dlFail (AcqError.httpFailed env.httpCode) none false
    else
      match env.fileSize with
      | none => dlFail AcqError.fileMissing none false
      | some size =>
        if size = 0 then dlFail AcqError.emptyFile none false
        else if maxRepoSize < size then dlFail (AcqError.tooLarge size) none false
        else if !(isValidZip env.zipHeader) then
          dlFail AcqError.notZip (some (looksLikeHtml env.zipHeader)) false
        else if !env.unzipOk then
          dlFail AcqError.unzipFailed none true
        else
          match env.extractedEntries with
          | [] => dlFail AcqError.noEntries none true
          | extractedDir :: _ =>
            let repoPath := env.tempDirPath ++ pathSlash ++ extractedDir
            if !env.readWrapperOk then
              { result := Except.ok repoPath
                zipFileExists := false
                tempDirExists := true
                extractionAttempted := true
                htmlDiagnosed := none
                wrapperRemoved := false
                rootListing := env.wrapperEntries }
            else
              match env.wrapperEntries with
              | [] =>
                { result := Except.ok repoPath
                  zipFileExists := false
                  tempDirExists := true
                  extractionAttempted := true
                  htmlDiagnosed := none
                  wrapperRemoved := false
                  rootListing := [] }
              | e :: es =>
                if env.renamesOk then
                  { result := Except.ok env.tempDirPath
                    zipFileExists := false
                    tempDirExists := true
                    extractionAttempted := true
                    htmlDiagnosed := none
                    wrapperRemoved := true
                    rootListing := e :: es }
                else
                  { result := Except.ok repoPath
                    zipFileExists := false
                    tempDirExists := true
                    extractionAttempted := true
                    htmlDiagnosed := none
                    wrapperRemoved := false
                    rootListing := e :: es }

/- ## Credential provider (src/github/app.ts `getInstallationToken`)

The cache is the `github_app_installations` table; the environment carries
the clock and the identity-endpoint exchange outcome. The returned Bool
records whether a network exchange happened. -/

structure InstallationRow where
  rowId : Nat
  installationId : String
  accessToken : Option String
  tokenExpiresAt : Option Nat
  updatedAt : Nat
deriving DecidableEq

structure AppDb where
  installations : List InstallationRow
deriving DecidableEq

inductive TokenError where
  | notFound (installationId : String)
  | invalidId (installationId : String)
  | exchangeFailed (msg : String)
deriving DecidableEq

structure TokenEnv where
  now : Nat
  fetched : Except String (String × Nat)

/-- app.ts line 88: the fixed 5-minute safety margin, in milliseconds. -/
def tokenSafetyMarginMs : Nat := 5 * 60 * 1000

/-- app.ts lines 284-291: persist the new token and expiry into the
installation row (UPDATE keyed by the row id). -/
def refreshedDb (env : TokenEnv) (db : AppDb) (inst : InstallationRow)
    (tok : String) (exp : Nat) : AppDb :=
  { installations := db.installations.map (fun r =>
      if r.rowId == inst.rowId then
        { r with accessToken := some tok, tokenExpiresAt := some exp,
                 updatedAt := env.now }
      else r) }

/-- app.ts lines 274-295: the refresh path — parse the installation id
(`parseInt` + `Number.isFinite`, modelled as `jsParseNat`), exchange the
signed app JWT for a fresh installation token, and persist the new token
and expiry into the installation row. -/
def refreshInstallationToken (idStr : String) (env : TokenEnv) (db : AppDb)
    (inst : InstallationRow) : Except TokenError String × AppDb × Bool :=
  match jsParseNat idStr with
  | none => (Except.error (TokenError.invalidId idStr), db, false)
  | some _ =>
    match env.fetched with
    | Except.error msg => (Except.error (TokenError.exchangeFailed msg), db, true)
    | Except.ok (tok, exp) => (Except.ok tok, refreshedDb env db inst tok exp, true)

/-- app.ts lines 251-295 `getInstallationToken`: look up the installation
row; if a cached token exists whose expiry is strictly more than the
5-minute margin past `now`, return it with no exchange; otherwise refresh. -/
def getInstallationToken (idStr : String) (env : TokenEnv) (db : AppDb) :
    Except TokenError String × AppDb × Bool :=
  match db.installations.find? (fun r => r.installationId == idStr) with
  | none => (Except.error (TokenError.notFound idStr), db, false)
  | some inst =>
    match inst.accessToken, inst.tokenExpiresAt with
    | some tok, some exp =>
      if env.now + tokenSafetyMarginMs < exp then
        (Except.ok tok, db, false)
      else
        refreshInstallationToken idStr env db inst
    | some _, none => refreshInstallationToken idStr env db inst
    | none, _ => refreshInstallationToken idStr env db inst

/- ## Job intake (src/worker.ts `processJob`)

The persistence collaborator is modelled as explicit table states. The
scan itself and the credential resolution are the orchestrator and
credential-provider models above; `processJob` takes the scan outcome as a
value and performs the persistence and acknowledgement logic of
worker.ts lines 17-110. The returned Bool is the delivery acknowledgement
(true = HTTP 200, the queue daemon deletes the message). -/

structure SecurityScanJob where
  scanId : String
  repoId : Nat
  repoUrl : String
  branch : String
  token : Option String := none
  installationId : Option String := none
deriving DecidableEq

def statusRunning : String := "running"

def statusCompleted : String := "completed"

def statusFailed : String := "failed"

structure ScanRow where
  scanId : String
  status : String
  toolsUsed : List String
  scanDuration : Option Nat
  totalIssues : Nat
  criticalCount : Nat
  highCount : Nat
  mediumCount : Nat
  lowCount : Nat
  infoCount : Nat
  completedAt : Option Nat
deriving DecidableEq

structure IssueRow where
  scanId : String
  tool : IssueTool
  severity : SecuritySeverity
  title : String
  description : String
  filePath : String
  lineStart : Nat
  lineEnd : Option Nat
  code : Option String
  recommendation : Option String
  cwe : List String
  owasp : List String
deriving DecidableEq

structure WorkerDb where
  scans : List ScanRow
  issues : List IssueRow
deriving DecidableEq

/-- worker.ts lines 56-70: the completed-status update of the scan row
keyed by scanId. -/
def completeScanRow (res : SecurityScanResult) (row : ScanRow) : ScanRow :=
  { row with
    status := statusCompleted
    toolsUsed := res.toolsUsed
    scanDuration := some res.scanDuration
    totalIssues := res.summary.total
    criticalCount := res.summary.critical
    highCount := res.summary.high
    mediumCount := res.summary.medium
    lowCount := res.summary.low
    infoCount := res.summary.info
    completedAt := some res.timestamp }

/-- worker.ts lines 75-90: one inserted finding row. -/
def issueRowOf (scanId : String) (i : SecurityIssue) : IssueRow :=
  { scanId := scanId
    tool := i.tool
    severity := i.severity
    title := i.title
    description := i.description
    filePath := i.filePath
    lineStart := i.lineStart
    lineEnd := i.lineEnd
    code := i.code
    recommendation := i.recommendation
    cwe := i.cwe.getD []
    owasp := i.owasp.getD [] }

/-- The UPDATE ... WHERE scanId = job.scanId of the success branch applied
to one row. -/
def updScan (job : SecurityScanJob) (res : SecurityScanResult) (row : ScanRow) : ScanRow :=
  if row.scanId = job.scanId then completeScanRow res row else row

/-- The UPDATE ... WHERE scanId = job.scanId of the failure branch applied
to one row. -/
def failScan (job : SecurityScanJob) (now : Nat) (row : ScanRow) : ScanRow :=
  if row.scanId = job.scanId then
    { row with status := statusFailed, completedAt := some now }
  else row

/-- worker.ts lines 17-110 `processJob`: on a successful scan, UPDATE the
scan row to completed (overwrite keyed by scanId) and INSERT the finding
rows; on failure, UPDATE the scan row to failed and rethrow (so the HTTP
handler answers 500 and the delivery is retried). -/
def processJob (job : SecurityScanJob) (outcome : Except ScanError SecurityScanResult)
    (now : Nat) (db : WorkerDb) : Bool × WorkerDb :=
  match outcome with
  | Except.ok res =>
    (true,
     { scans := db.scans.map (updScan job res)
       issues := db.issues ++ res.issues.map (issueRowOf job.scanId) })
  | Except.error _ =>
    (false, { db with scans := db.scans.map (failScan job now) })

/- ## Concrete fixtures used by witnesses and scenario theorems -/

def urlAcme : String := "https://github.com/acme/widgets.git"

def branchMain : String := "main"

def tmpRoot : String := "/w/.temp/repo-1"

def scanIdA : String := "scan-a"

def optsA : ScanOptions :=
  { repoId := 7, repoUrl := urlAcme, branch := branchMain }

def envOkEmpty : ScanEnv :=
  { scanId := scanIdA
    acquisition := Except.ok tmpRoot
    semgrep := Except.ok []
    opengrep := Except.ok []
    gitleaks := Except.ok []
    checkov := Except.ok []
    trivy := Except.ok []
    watchdogFires := false
    durationMs := 1000
    timestamp := 5 }

def reportA : SecurityScanResult :=
  { repoId := 7
    branch := branchMain
    scanId := scanIdA
    timestamp := 5
    issues := []
    summary := { critical := 0, high := 0, medium := 0, low := 0, info := 0, total := 0 }
    scanDuration := 1000
    toolsUsed := toolNames }

/- ## Theorems -/

theorem severityCount_partition (issues : List SecurityIssue) :
    severityCount SecuritySeverity.critical issues + severityCount SecuritySeverity.high issues +
      severityCount SecuritySeverity.medium issues + severityCount SecuritySeverity.low issues +
      severityCount SecuritySeverity.info issues = issues.length := by
  induction issues with
  | nil => rfl
  | cons x xs ih =>
    simp only [severityCount, List.filter_cons, List.length_cons] at *
    cases hx : x.severity <;> simp [hx] <;> omega

/-- C1: for every job for which `runSecurityScan` returns a report, the
report summary total equals the number of findings in `issues`, and the
per-severity counts sum to the total. -/
theorem scan_summary_total_consistent (options : ScanOptions) (env : ScanEnv)
    (r : SecurityScanResult)
    (h : (runSecurityScan options env).fst = Except.ok r) :
    r.summary.total = r.issues.length ∧
      r.summary.critical + r.summary.high + r.summary.medium + r.summary.low +
        r.summary.info = r.summary.total := by
  unfold runSecurityScan at h
  by_cases hu : options.repoUrl = emptyStr
  · simp [hu] at h
  · rw [if_neg hu] at h
    cases hacq : env.acquisition with
    | error e => rw [hacq] at h; simp at h
    | ok tempDir =>
      rw [hacq] at h
      simp only [Except.ok.injEq] at h
      subst h
      exact ⟨rfl, severityCount_partition _⟩

/-- C1 witness: the theorem applied at a concrete job and environment. -/
theorem scan_summary_total_consistent_witness :
    reportA.summary.total = reportA.issues.length ∧
      reportA.summary.critical + reportA.summary.high + reportA.summary.medium +
        reportA.summary.low + reportA.summary.info = reportA.summary.total :=
  scan_summary_total_consistent optsA envOkEmpty reportA (by decide)

theorem strData_append (a b : String) : (a ++ b).data = a.data ++ b.data := by
  cases a; cases b; rfl

theorem strMk_data (s : String) : String.mk s.data = s := by
  cases s; rfl

theorem startsWithL_self_append (p s : List Char) : startsWithL p (p ++ s) = true := by
  induction p with
  | nil => rfl
  | cons a as ih => simp [startsWithL, ih]

theorem replaceFirstL_append (p rep s : List Char) :
    replaceFirstL p rep (p ++ s) = rep ++ s := by
  cases p with
  | nil =>
    cases s with
    | nil => simp [replaceFirstL, List.isEmpty]
    | cons c cs => simp [replaceFirstL, startsWithL]
  | cons a as =>
    show replaceFirstL (a :: as) rep (a :: (as ++ s)) = rep ++ s
    unfold replaceFirstL
    rw [show (a :: (as ++ s)) = ((a :: as) ++ s) from rfl, startsWithL_self_append]
    simp [List.drop_left]

theorem replaceFirstL_not_contains (p rep s : List Char)
    (h : containsSub p s = false) : replaceFirstL p rep s = s := by
  induction s with
  | nil =>
    unfold containsSub at h
    unfold replaceFirstL
    simp [h]
  | cons c cs ih =>
    unfold containsSub at h
    rw [Bool.or_eq_false_iff] at h
    unfold replaceFirstL
    simp [h.1, ih h.2]

theorem cleanPath_of_rooted (tempDir rel : String)
    (h : strContains tempDir rel = false) :
    cleanPath tempDir (tempDir ++ pathSlash ++ rel) = rel := by
  unfold cleanPath jsReplaceFirst
  have h1 : (tempDir ++ pathSlash ++ rel).data = (tempDir ++ pathSlash).data ++ rel.data :=
    strData_append _ _
  rw [h1]
  have h2 : replaceFirstL (tempDir ++ pathSlash).data emptyStr.data
      ((tempDir ++ pathSlash).data ++ rel.data) = rel.data := by
    rw [replaceFirstL_append]; rfl
  rw [h2, strMk_data]
  rw [replaceFirstL_not_contains _ _ _ h, strMk_data]

/-- C2 counterexample: with scan root `/t`, a finding at path `/tx/ty`
(the root occurring twice, neither time followed by a slash at the first
occurrence) is returned with file path `x/ty`, which still contains the
acquisition-time temporary root `/t`: the first-occurrence `replace` does
not establish the universal invariant. -/
def tdCex : String := "/t"

def pathCexRaw : String := "/tx/ty"

def issueCexRaw : SecurityIssue :=
  { tool := IssueTool.semgrep
    severity := SecuritySeverity.low
    title := emptyStr
    description := emptyStr
    filePath := pathCexRaw
    lineStart := 1 }

def envCex : ScanEnv :=
  { envOkEmpty with acquisition := Except.ok tdCex, semgrep := Except.ok [ issueCexRaw ] }

theorem finding_path_retains_temp_root_cex :
    (runSecurityScan optsA envCex).fst.toOption.map
      (fun r => r.issues.map (fun j => strContains tdCex j.filePath)) = some [ true ] := by
  decide

/-- C2 amended: the orchestrator strips the first occurrence of the
scan-root prefix from every finding path; whenever every scanner-produced
finding path is the scan root followed by a slash and a root-free relative
path (the shape real engine output has), every finding in the returned
report is free of the temporary root. -/
theorem stripped_paths_root_free (options : ScanOptions) (env : ScanEnv)
    (tempDir : String) (r : SecurityScanResult)
    (hacq : env.acquisition = Except.ok tempDir)
    (hroot : ∀ i ∈ scanContributions options env,
      ∃ rel, i.filePath = tempDir ++ pathSlash ++ rel ∧ strContains tempDir rel = false)
    (h : (runSecurityScan options env).fst = Except.ok r) :
    ∀ j ∈ r.issues, strContains tempDir j.filePath = false := by
  unfold runSecurityScan at h
  by_cases hu : options.repoUrl = emptyStr
  · simp [hu] at h
  · rw [if_neg hu, hacq] at h
    simp only [Except.ok.injEq] at h
    subst h
    intro j hj
    simp only [List.mem_map] at hj
    obtain ⟨i, hi, rfl⟩ := hj
    obtain ⟨rel, hrel, hcon⟩ := hroot i hi
    show strContains tempDir (cleanPath tempDir i.filePath) = false
    rw [hrel, cleanPath_of_rooted tempDir rel hcon]
    exact hcon

def relAjs : String := "a.js"

def issueW2 : SecurityIssue :=
  { tool := IssueTool.semgrep
    severity := SecuritySeverity.low
    title := emptyStr
    description := emptyStr
    filePath := tmpRoot ++ pathSlash ++ relAjs
    lineStart := 3 }

def issueW2clean : SecurityIssue := { issueW2 with filePath := relAjs }

def envW2 : ScanEnv := { envOkEmpty with semgrep := Except.ok [ issueW2 ] }

def reportW2 : SecurityScanResult :=
  { repoId := 7
    branch := branchMain
    scanId := scanIdA
    timestamp := 5
    issues := [ issueW2clean ]
    summary := { critical := 0, high := 0, medium := 0, low := 1, info := 0, total := 1 }
    scanDuration := 1000
    toolsUsed := toolNames }

/-- C2 witness: the amended theorem applied at a concrete run. -/
theorem stripped_paths_root_free_witness :
    strContains tmpRoot issueW2clean.filePath = false := by
  have hr := stripped_paths_root_free optsA envW2 tmpRoot reportW2 rfl
    (by
      intro i hi
      have hc : scanContributions optsA envW2 = [ issueW2 ] := by decide
      rw [hc, List.mem_singleton] at hi
      subst hi
      exact ⟨relAjs, rfl, by decide⟩)
    (by decide)
  exact hr issueW2clean (by decide)

/-- C3: whenever repository acquisition succeeded, the finally block of
`runSecurityScan` leaves the run with the cleanup capability invoked at
least once (twice when the watchdog already forced a cleanup — the
capability is an idempotent recursive force-remove, so the second call is
safe), the watchdog timer cancelled, and the job-scoped storage gone. -/
theorem cleanup_and_timer_on_all_exits (options : ScanOptions) (env : ScanEnv)
    (tempDir : String) (hurl : options.repoUrl ≠ emptyStr)
    (hacq : env.acquisition = Except.ok tempDir) :
    (runSecurityScan options env).snd.storageExists = false ∧
      (runSecurityScan options env).snd.timerActive = false ∧
      1 ≤ (runSecurityScan options env).snd.cleanupCalls := by
  unfold runSecurityScan
  rw [if_neg hurl, hacq]
  refine ⟨rfl, rfl, ?_⟩
  show 1 ≤ (if env.watchdogFires then 2 else 1)
  split <;> omega

/-- C3 witness: the theorem applied at a concrete run. -/
theorem cleanup_and_timer_on_all_exits_witness :
    (runSecurityScan optsA envOkEmpty).snd.storageExists = false ∧
      (runSecurityScan optsA envOkEmpty).snd.timerActive = false ∧
      1 ≤ (runSecurityScan optsA envOkEmpty).snd.cleanupCalls :=
  cleanup_and_timer_on_all_exits optsA envOkEmpty tmpRoot (by decide) rfl

/-- Replacing every rejected scanner promise by an empty successful one:
this is what the per-scanner `.catch` handlers make the orchestrator see. -/
def normalizeScanEnv (env : ScanEnv) : ScanEnv :=
  { env with
    semgrep := Except.ok (catchEmpty env.semgrep)
    opengrep := Except.ok (catchEmpty env.opengrep)
    gitleaks := Except.ok (catchEmpty env.gitleaks)
    checkov := Except.ok (catchEmpty env.checkov)
    trivy := Except.ok (catchEmpty env.trivy) }

/-- C4: no tool adapter ever fails its caller — every environment yields a
successful (possibly empty) finding list, a missing binary or a subprocess
timeout yields exactly the empty list, and the orchestrator outcome is
unchanged when any erroring adapter is replaced by an empty contribution
(so a job is never failed solely because one adapter timed out or errored). -/
theorem adapters_never_fail_caller :
    (∀ e, ∃ l, runSemgrep e = Except.ok l) ∧
    (∀ e, ∃ l, runOpengrep e = Except.ok l) ∧
    (∀ e, ∃ l, runGitleaks e = Except.ok l) ∧
    (∀ e, ∃ l, runCheckov e = Except.ok l) ∧
    (∀ e, ∃ l, runTrivy e = Except.ok l) ∧
    runSemgrep ExecOutcome.notInstalled = Except.ok [] ∧
    runSemgrep ExecOutcome.timedOut = Except.ok [] ∧
    runOpengrep ExecOutcome.notInstalled = Except.ok [] ∧
    runOpengrep ExecOutcome.timedOut = Except.ok [] ∧
    runGitleaks ExecOutcome.notInstalled = Except.ok [] ∧
    runGitleaks ExecOutcome.timedOut = Except.ok [] ∧
    runCheckov ExecOutcome.notInstalled = Except.ok [] ∧
    runCheckov ExecOutcome.timedOut = Except.ok [] ∧
    runTrivy ExecOutcome.notInstalled = Except.ok [] ∧
    runTrivy ExecOutcome.timedOut = Except.ok [] ∧
    (∀ options env, runSecurityScan options env =
      runSecurityScan options (normalizeScanEnv env)) := by
  refine ⟨?_, ?_, ?_, ?_, ?_, rfl, rfl, rfl, rfl, rfl, rfl, rfl, rfl, rfl, rfl, ?_⟩
  · intro e
    cases e with
    | notInstalled => exact ⟨[], rfl⟩
    | timedOut => exact ⟨[], rfl⟩
    | failed m => exact ⟨[], rfl⟩
    | output p => cases p with
      | none => exact ⟨[], rfl⟩
      | some findings => exact ⟨_, rfl⟩
  · intro e
    cases e with
    | notInstalled => exact ⟨[], rfl⟩
    | timedOut => exact ⟨[], rfl⟩
    | failed m => exact ⟨[], rfl⟩
    | output p => cases p with
      | none => exact ⟨[], rfl⟩
      | some findings => exact ⟨_, rfl⟩
  · intro e
    cases e with
    | notInstalled => exact ⟨[], rfl⟩
    | timedOut => exact ⟨[], rfl⟩
    | failed m => exact ⟨[], rfl⟩
    | output p => cases p with
      | none => exact ⟨[], rfl⟩
      | some findings => exact ⟨_, rfl⟩
  · intro e
    cases e with
    | notInstalled => exact ⟨[], rfl⟩
    | timedOut => exact ⟨[], rfl⟩
    | failed m => exact ⟨[], rfl⟩
    | output p => cases p with
      | none => exact ⟨[], rfl⟩
      | some findings => exact ⟨_, rfl⟩
  · intro e
    cases e with
    | notInstalled => exact ⟨[], rfl⟩
    | timedOut => exact ⟨[], rfl⟩
    | failed m => exact ⟨[], rfl⟩
    | output p => cases p with
      | none => exact ⟨[], rfl⟩
      | some findings => exact ⟨_, rfl⟩
  · intro options env
    cases env
    rfl

/- C5: re-processing the same delivery. The scan-record UPDATE is an
idempotent overwrite keyed by scanId, but the finding rows are INSERTed
without any delete or conflict clause, so a second processing of the same
delivery appends a second copy of every finding row. -/

def s1Name : String := "scan-job-1"

def rowS1 : ScanRow :=
  { scanId := s1Name
    status := statusRunning
    toolsUsed := []
    scanDuration := none
    totalIssues := 0
    criticalCount := 0
    highCount := 0
    mediumCount := 0
    lowCount := 0
    infoCount := 0
    completedAt := none }

def db5 : WorkerDb := { scans := [ rowS1 ], issues := [] }

def job5 : SecurityScanJob :=
  { scanId := s1Name, repoId := 7, repoUrl := urlAcme, branch := branchMain }

def res5 : SecurityScanResult :=
  { reportA with
    issues := [ issueW2clean ]
    summary := { critical := 0, high := 0, medium := 0, low := 1, info := 0, total := 1 } }

/-- C5 counterexample: processing the same delivery twice with the same
scanId does NOT leave the persisted state equal to processing it once —
at this concrete input the second run appends a duplicate finding row. -/
theorem reprocess_duplicates_findings_cex :
    (processJob job5 (Except.ok res5) 9
        ((processJob job5 (Except.ok res5) 9 db5).snd)).snd ≠
      (processJob job5 (Except.ok res5) 9 db5).snd := by
  decide

theorem updScan_idem (job : SecurityScanJob) (res : SecurityScanResult) (row : ScanRow) :
    updScan job res (updScan job res row) = updScan job res row := by
  unfold updScan
  by_cases h : row.scanId = job.scanId
  · simp [h, completeScanRow]
  · simp [h]

/-- C5 amended: re-running the pipeline for the same scanId overwrites the
persisted scan record idempotently (status, counters, rollups), but the
stored findings are appended again — the second processing adds a second
copy of the finding rows instead of overwriting them. -/
theorem reprocess_overwrites_record_appends_findings
    (job : SecurityScanJob) (res : SecurityScanResult) (now now2 : Nat) (db : WorkerDb) :
    ((processJob job (Except.ok res) now2
        ((processJob job (Except.ok res) now db).snd)).snd).scans =
      ((processJob job (Except.ok res) now db).snd).scans ∧
    ((processJob job (Except.ok res) now2
        ((processJob job (Except.ok res) now db).snd)).snd).issues =
      ((processJob job (Except.ok res) now db).snd).issues ++
        res.issues.map (issueRowOf job.scanId) := by
  constructor
  · show (db.scans.map (updScan job res)).map (updScan job res) = db.scans.map (updScan job res)
    rw [List.map_map]
    have hcomp : updScan job res ∘ updScan job res = updScan job res :=
      funext (updScan_idem job res)
    rw [hcomp]
  · rfl

/- C6: severity defaults per adapter. -/

def sevModerate : String := "moderate"

def classBase : String := "checkov.terraform.checks.resource.base"

/-- C6 counterexample: an engine-native severity no adapter recognizes is
NOT mapped to the lowest informational tier by every non-gitleaks adapter:
semgrep maps it to `low` and checkov maps it to `medium`, not `info`. -/
theorem default_severity_not_info_cex :
    mapSemgrepSeverity sevModerate = SecuritySeverity.low ∧
      mapSemgrepSeverity sevModerate ≠ SecuritySeverity.info ∧
      mapCheckovSeverity classBase = SecuritySeverity.medium ∧
      mapCheckovSeverity classBase ≠ SecuritySeverity.info := by
  decide

/-- C6 amended: unrecognized engine-native severities map to a per-adapter
default tier — `low` for the semgrep and opengrep adapters, `medium` for
checkov, `info` for trivy — and the credential-detection adapter
(gitleaks) maps every finding to `critical` unconditionally. -/
theorem severity_default_tiers :
    (∀ s : String, jsToLower s ≠ sevError → jsToLower s ≠ sevCritical →
      jsToLower s ≠ sevWarning → jsToLower s ≠ sevInfo →
      mapSemgrepSeverity s = SecuritySeverity.low) ∧
    (∀ s : String, jsToLower s ≠ sevError → jsToLower s ≠ sevCritical →
      jsToLower s ≠ sevWarning → jsToLower s ≠ sevInfo →
      mapOpengrepSeverity s = SecuritySeverity.low) ∧
    (∀ c : String, strContains classCritical c = false → strContains classHigh c = false →
      strContains classMedium c = false → strContains classLow c = false →
      mapCheckovSeverity c = SecuritySeverity.medium) ∧
    (∀ s : String, jsToUpper s ≠ classCritical → jsToUpper s ≠ classHigh →
      jsToUpper s ≠ classMedium → jsToUpper s ≠ classLow →
      mapTrivySeverity s = SecuritySeverity.info) ∧
    (∀ e l, runGitleaks e = Except.ok l → ∀ i ∈ l, i.severity = SecuritySeverity.critical) := by
  refine ⟨?_, ?_, ?_, ?_, ?_⟩
  · intro s h1 h2 h3 h4
    simp [mapSemgrepSeverity, h1, h2, h3, h4]
  · intro s h1 h2 h3 h4
    simp [mapOpengrepSeverity, h1, h2, h3, h4]
  · intro c h1 h2 h3 h4
    simp [mapCheckovSeverity, h1, h2, h3, h4]
  · intro s h1 h2 h3 h4
    simp [mapTrivySeverity, h1, h2, h3, h4]
  · intro e l h i hi
    cases e with
    | notInstalled =>
      simp only [runGitleaks, Except.ok.injEq] at h
      subst h; simp at hi
    | timedOut =>
      simp only [runGitleaks, Except.ok.injEq] at h
      subst h; simp at hi
    | failed m =>
      simp only [runGitleaks, Except.ok.injEq] at h
      subst h; simp at hi
    | output p =>
      cases p with
      | none =>
        simp only [runGitleaks, Except.ok.injEq] at h
        subst h; simp at hi
      | some findings =>
        simp only [runGitleaks, Except.ok.injEq] at h
        subst h
        simp only [List.mem_map] at hi
        obtain ⟨f, _, rfl⟩ := hi
        rfl

/- C7: the all-adapters-unavailable scenario. -/

def env7 : ScanEnv :=
  { scanId := scanIdA
    acquisition := Except.ok tmpRoot
    semgrep := runSemgrep ExecOutcome.notInstalled
    opengrep := runOpengrep ExecOutcome.notInstalled
    gitleaks := runGitleaks ExecOutcome.notInstalled
    checkov := runCheckov ExecOutcome.notInstalled
    trivy := runTrivy ExecOutcome.notInstalled
    watchdogFires := false
    durationMs := 1000
    timestamp := 5 }

/-- C7: a job with a valid repository URL, no token, and all five engine
binaries missing still produces a successful report with zero findings
(every adapter contributed nothing; `toolsUsed` records the attempted
tools), and the delivery is acknowledged with the scan row marked
completed, not failed. -/
theorem all_tools_missing_scenario :
    (runSecurityScan optsA env7).fst = Except.ok reportA ∧
      reportA.issues = [] ∧
      reportA.summary.total = 0 ∧
      (processJob job5 (runSecurityScan optsA env7).fst 9 db5).fst = true ∧
      ((processJob job5 (runSecurityScan optsA env7).fst 9 db5).snd.scans.map
        (fun r => r.status)) = [ statusCompleted ] ∧
      (processJob job5 (runSecurityScan optsA env7).fst 9 db5).snd.issues = [] := by
  refine ⟨by decide, rfl, rfl, by decide, by decide, by decide⟩

/- C8: magic-byte validation before extraction. -/

theorem isValidZip_true_take (header : String) (h : isValidZip header = true) :
    header.data.take 2 = [ 'P', 'K' ] := by
  unfold isValidZip at h
  rw [Bool.and_eq_true] at h
  obtain ⟨-, h2⟩ := h
  cases hd : header.data with
  | nil => rw [hd] at h2; simp at h2
  | cons p rest =>
    cases rest with
    | nil => rw [hd] at h2; simp at h2
    | cons k r2 =>
      rw [hd] at h2
      simp only [Bool.and_eq_true, beq_iff_eq] at h2
      obtain ⟨hp, hk⟩ := h2
      subst hp; subst hk
      rfl

/-- C8: when the validation buffer does not start with the zip magic bytes
`PK`, acquisition fails before any extraction is attempted, the diagnostic
records whether the payload looks like an HTML error page, and the
job-scoped storage (downloaded file and extraction directory) is removed. -/
theorem invalid_magic_fails_before_extraction (env : DlEnv) (pr : String × String) (n : Nat)
    (hurl : env.parsedUrl = some pr)
    (hhttp : startsWithL httpOkDigit.data env.httpCode.data = true)
    (hsize : env.fileSize = some n) (hn0 : n ≠ 0) (hmax : n ≤ maxRepoSize)
    (hmagic : env.zipHeader.data.take 2 ≠ [ 'P', 'K' ]) :
    (downloadRepoAsZip env).result = Except.error AcqError.notZip ∧
      (downloadRepoAsZip env).extractionAttempted = false ∧
      (downloadRepoAsZip env).htmlDiagnosed = some (looksLikeHtml env.zipHeader) ∧
      (downloadRepoAsZip env).zipFileExists = false ∧
      (downloadRepoAsZip env).tempDirExists = false := by
  have hz : isValidZip env.zipHeader = false := by
    cases hb : isValidZip env.zipHeader with
    | false => rfl
    | true => exact absurd (isValidZip_true_take _ hb) hmagic
  have hlt : ¬ (maxRepoSize < n) := not_lt.mpr hmax
  simp [downloadRepoAsZip, hurl, hhttp, hsize, hn0, hlt, hz, dlFail]

def ownerAcme : String := "acme"

def repoWidgets : String := "widgets"

def code200 : String := "200"

def htmlPayload : String := "<html><body>404 Not Found</body></html>"

def dlEnvHtml : DlEnv :=
  { tempDirPath := tmpRoot
    parsedUrl := some (ownerAcme, repoWidgets)
    httpCode := code200
    fileSize := some 512
    zipHeader := htmlPayload
    unzipOk := false
    extractedEntries := []
    readWrapperOk := true
    wrapperEntries := []
    renamesOk := true }

/-- C8 witness: the theorem applied to a concrete HTML error payload
(whose diagnostic is `some true`: it does look like HTML). -/
theorem invalid_magic_fails_before_extraction_witness :
    looksLikeHtml htmlPayload = true ∧
      ((downloadRepoAsZip dlEnvHtml).result = Except.error AcqError.notZip ∧
        (downloadRepoAsZip dlEnvHtml).extractionAttempted = false ∧
        (downloadRepoAsZip dlEnvHtml).htmlDiagnosed = some (looksLikeHtml dlEnvHtml.zipHeader) ∧
        (downloadRepoAsZip dlEnvHtml).zipFileExists = false ∧
        (downloadRepoAsZip dlEnvHtml).tempDirExists = false) :=
  ⟨by decide,
   invalid_magic_fails_before_extraction dlEnvHtml (ownerAcme, repoWidgets) 512 rfl
     (by decide) rfl (by decide) (by decide) (by decide)⟩

/- C9: wrapper-directory flattening. -/

/-- C9: on the success path (one top-level wrapper directory with a
non-empty listing, readdir and renames succeeding), the wrapper is removed,
the returned root is the job temp directory, and the files the adapters
see at the scan root are exactly the wrapper entries. -/
theorem flatten_wrapper_directory (env : DlEnv) (pr : String × String) (n : Nat) (w : String)
    (hurl : env.parsedUrl = some pr)
    (hhttp : startsWithL httpOkDigit.data env.httpCode.data = true)
    (hsize : env.fileSize = some n) (hn0 : n ≠ 0) (hmax : n ≤ maxRepoSize)
    (hzip : isValidZip env.zipHeader = true)
    (hunzip : env.unzipOk = true)
    (hentries : env.extractedEntries = [ w ])
    (hread : env.readWrapperOk = true)
    (hwrap : env.wrapperEntries ≠ [])
    (hren : env.renamesOk = true) :
    (downloadRepoAsZip env).result = Except.ok env.tempDirPath ∧
      (downloadRepoAsZip env).wrapperRemoved = true ∧
      (downloadRepoAsZip env).rootListing = env.wrapperEntries := by
  have hlt : ¬ (maxRepoSize < n) := not_lt.mpr hmax
  cases hw : env.wrapperEntries with
  | nil => exact absurd hw hwrap
  | cons e es =>
    simp [downloadRepoAsZip, hurl, hhttp, hsize, hn0, hlt, hzip, hunzip, hentries,
      hread, hren, hw]

def zipMagicHeader : String := "PK-zip-archive-data"

def wrapperName : String := "widgets-main"

def srcEntry : String := "src"

def readmeEntry : String := "README.md"

def dlEnvOk : DlEnv :=
  { tempDirPath := tmpRoot
    parsedUrl := some (ownerAcme, repoWidgets)
    httpCode := code200
    fileSize := some 2048
    zipHeader := zipMagicHeader
    unzipOk := true
    extractedEntries := [ wrapperName ]
    readWrapperOk := true
    wrapperEntries := [ srcEntry, readmeEntry ]
    renamesOk := true }

/-- C9 witness: the theorem applied at a concrete successful download. -/
theorem flatten_wrapper_directory_witness :
    (downloadRepoAsZip dlEnvOk).result = Except.ok dlEnvOk.tempDirPath ∧
      (downloadRepoAsZip dlEnvOk).wrapperRemoved = true ∧
      (downloadRepoAsZip dlEnvOk).rootListing = dlEnvOk.wrapperEntries :=
  flatten_wrapper_directory dlEnvOk (ownerAcme, repoWidgets) 2048 wrapperName rfl
    (by decide) rfl (by decide) (by decide) (by decide) rfl rfl rfl (by decide) rfl

/- C10: installation-token cache policy. -/

/-- C10: for a known installation — a cached token whose expiry is strictly
more than the 5-minute margin past `now` is returned unchanged with no
network exchange and no cache write; a cached token with 5 minutes or less
of remaining validity, or an installation with no cached token, triggers a
fetch from the identity endpoint, and the cache is updated with the new
token and expiry. -/
theorem installation_token_cache_policy (idStr : String) (env : TokenEnv) (db : AppDb)
    (inst : InstallationRow)
    (hfind : db.installations.find? (fun r => r.installationId == idStr) = some inst) :
    (∀ tok exp, inst.accessToken = some tok → inst.tokenExpiresAt = some exp →
      env.now + tokenSafetyMarginMs < exp →
      getInstallationToken idStr env db = (Except.ok tok, db, false)) ∧
    (∀ tok exp t e, inst.accessToken = some tok → inst.tokenExpiresAt = some exp →
      exp ≤ env.now + tokenSafetyMarginMs → (jsParseNat idStr).isSome = true →
      env.fetched = Except.ok (t, e) →
      getInstallationToken idStr env db =
        (Except.ok t, refreshedDb env db inst t e, true)) ∧
    (∀ t e, inst.accessToken = none → (jsParseNat idStr).isSome = true →
      env.fetched = Except.ok (t, e) →
      getInstallationToken idStr env db =
        (Except.ok t, refreshedDb env db inst t e, true)) := by
  refine ⟨?_, ?_, ?_⟩
  · intro tok exp h1 h2 h3
    simp only [getInstallationToken, hfind, h1, h2]
    rw [if_pos h3]
  · intro tok exp t e h1 h2 h3 hp hf
    simp only [getInstallationToken, hfind, h1, h2]
    rw [if_neg (not_lt.mpr h3)]
    obtain ⟨v, hv⟩ := Option.isSome_iff_exists.mp hp
    simp only [refreshInstallationToken, hv, hf]
  · intro t e h1 hp hf
    simp only [getInstallationToken, hfind, h1]
    obtain ⟨v, hv⟩ := Option.isSome_iff_exists.mp hp
    simp only [refreshInstallationToken, hv, hf]

def inst42 : String := "42"

def tokOld : String := "ghs-cached-token"

def tokNew : String := "ghs-fresh-token"

def fetchUnused : String := "unused"

def instFresh : InstallationRow :=
  { rowId := 1, installationId := inst42, accessToken := some tokOld,
    tokenExpiresAt := some 10000000, updatedAt := 0 }

def instStale : InstallationRow := { instFresh with tokenExpiresAt := some 200000 }

def dbTokFresh : AppDb := { installations := [ instFresh ] }

def dbTokStale : AppDb := { installations := [ instStale ] }

def envTokFresh : TokenEnv := { now := 1000, fetched := Except.error fetchUnused }

def envTokStale : TokenEnv := { now := 1000, fetched := Except.ok (tokNew, 9999999) }

/-- C10 witness: the theorem applied at a fresh-cache hit and at a stale
refresh. -/
theorem installation_token_cache_policy_witness :
    getInstallationToken inst42 envTokFresh dbTokFresh = (Except.ok tokOld, dbTokFresh, false) ∧
      getInstallationToken inst42 envTokStale dbTokStale =
        (Except.ok tokNew, refreshedDb envTokStale dbTokStale instStale tokNew 9999999, true) :=
  ⟨(installation_token_cache_policy inst42 envTokFresh dbTokFresh instFresh rfl).1
      tokOld 10000000 rfl rfl (by decide),
   (installation_token_cache_policy inst42 envTokStale dbTokStale instStale rfl).2.1
      tokOld 200000 tokNew 9999999 rfl rfl (by decide) (by decide) rfl⟩
